import Mathlib

/-!
Shallow embedding of `src/shared/engine.js` (the annualized CSSD-rounding
variant of the Montana child support engine: `r0`, `r2`, `MIN_SUPPORT_BANDS`,
`computeWorksheetC`, `computeWorksheetAPart1`, `computeWorksheetBPart2ForChild`
and `runMontanaChildSupport`).

JavaScript numbers are modelled as follows: finite values are rational numbers
(`ℚ`); the non-finite values `NaN`, `Infinity`, `-Infinity` are modelled by the
type `JSNum`, which is used on the code paths where a non-finite value can
actually flow from an input field (the per-child overnight counts, which the
engine compares and subtracts without first coercing them, and the arguments of
the rounding primitives `r0`/`r2`, which test `Number.isFinite`).  All other
quantities in the pipeline are finite whenever the corresponding inputs are
finite rationals, and are embedded directly in `ℚ`/`ℤ`; `Math.round` on a
finite value is round-half-up, i.e. `⌊x + 1/2⌋`.
-/

/-- Model of a JavaScript number: a finite rational, `NaN`, `Infinity` or
`-Infinity`. -/
inductive JSNum where
  | num (q : ℚ)
  | nan
  | inf
  | ninf
deriving DecidableEq, Repr

namespace JSNum

/-- JavaScript strict `>` comparison: any comparison with `NaN` is `false`. -/
def jgt : JSNum → JSNum → Bool
  | .num a, .num b => decide (b < a)
  | .nan, _ => false
  | _, .nan => false
  | .inf, .inf => false
  | .inf, _ => true
  | _, .inf => false
  | .ninf, _ => false
  | _, .ninf => true

/-- JavaScript subtraction with `NaN`/infinity propagation. -/
def jsub : JSNum → JSNum → JSNum
  | .num a, .num b => .num (a - b)
  | .nan, _ => .nan
  | _, .nan => .nan
  | .inf, .inf => .nan
  | .ninf, .ninf => .nan
  | .inf, _ => .inf
  | _, .inf => .ninf
  | .ninf, _ => .ninf
  | _, .ninf => .inf

/-- JavaScript multiplication with `NaN`/infinity propagation
(`Infinity * 0 = NaN`, sign rules otherwise). -/
def jmul : JSNum → JSNum → JSNum
  | .num a, .num b => .num (a * b)
  | .nan, _ => .nan
  | _, .nan => .nan
  | .inf, .inf => .inf
  | .inf, .ninf => .ninf
  | .ninf, .inf => .ninf
  | .ninf, .ninf => .inf
  | .inf, .num b => if 0 < b then .inf else if b < 0 then .ninf else .nan
  | .num a, .inf => if 0 < a then .inf else if a < 0 then .ninf else .nan
  | .ninf, .num b => if 0 < b then .ninf else if b < 0 then .inf else .nan
  | .num a, .ninf => if 0 < a then .ninf else if a < 0 then .inf else .nan

/-- JavaScript `Math.max`: `NaN` if either argument is `NaN`. -/
def jmax : JSNum → JSNum → JSNum
  | .nan, _ => .nan
  | _, .nan => .nan
  | .num a, .num b => .num (max a b)
  | .inf, _ => .inf
  | _, .inf => .inf
  | .ninf, x => x
  | x, .ninf => x

/-- `Number.isFinite`. -/
def isFinite : JSNum → Bool
  | .num _ => true
  | _ => false

end JSNum

/-- Source: `r0(x) = Math.round(Number.isFinite(+x) ? +x : 0)` — round all
cents to whole dollars, half up; a non-finite argument is coerced to `0`. -/
def r0 : JSNum → ℤ
  | .num q => ⌊q + 1 / 2⌋
  | _ => 0

/-- Source: `r2` — round to two decimals (`Math.round(n * 100) / 100`), with
the same non-finite coercion to `0`. -/
def r2 : JSNum → ℚ
  | .num q => (⌊q * 100 + 1 / 2⌋ : ℚ) / 100
  | _ => 0

/-- `r0` applied to a finite value (the only case arising inside the pure
arithmetic pipeline when the inputs are finite). -/
def r0Q (x : ℚ) : ℤ := r0 (.num x)

/-- `r2` applied to a finite value. -/
def r2Q (x : ℚ) : ℚ := r2 (.num x)

/-- Source constant `PERSONAL_ALLOWANCE = 20345`. -/
def PERSONAL_ALLOWANCE : ℤ := 20345

/-- Source constant `CREDIT_FACTOR = 0.0069` (Worksheet B parenting credit). -/
def CREDIT_FACTOR : ℚ := 0.0069

/-- Source table `PRIMARY_ALLOWANCE_BY_CHILD` (JS object with integer keys
`1`..`8`; any other key reads `undefined`, modelled by `none`). -/
def PRIMARY_ALLOWANCE_BY_CHILD (k : ℚ) : Option ℤ :=
  if k = 1 then some 6104
  else if k = 2 then some 10173
  else if k = 3 then some 14242
  else if k = 4 then some 16276
  else if k = 5 then some 18311
  else if k = 6 then some 20345
  else if k = 7 then some 22380
  else if k = 8 then some 24414
  else none

/-- Source table `SOLA_FACTOR_BY_CHILD`. -/
def SOLA_FACTOR_BY_CHILD (k : ℚ) : Option ℚ :=
  if k = 1 then some 0.14
  else if k = 2 then some 0.21
  else if k = 3 then some 0.27
  else if k = 4 then some 0.31
  else if k = 5 then some 0.35
  else if k = 6 then some 0.39
  else if k = 7 then some 0.43
  else if k = 8 then some 0.47
  else none

/-- One row of the Worksheet C minimum-support table: `{ min, max, mult }`. -/
structure Band where
  lo : ℚ
  hi : ℚ
  mult : ℚ
deriving DecidableEq, Repr

/-- Source table `MIN_SUPPORT_BANDS` (field `min` is `lo`, field `max` is
`hi`). -/
def MIN_SUPPORT_BANDS : List Band :=
  [ ⟨0.0, 0.25, 0.00⟩,
    ⟨0.251, 0.31, 0.01⟩,
    ⟨0.311, 0.38, 0.02⟩,
    ⟨0.381, 0.45, 0.03⟩,
    ⟨0.451, 0.52, 0.04⟩,
    ⟨0.521, 0.59, 0.05⟩,
    ⟨0.591, 0.66, 0.06⟩,
    ⟨0.661, 0.73, 0.07⟩,
    ⟨0.731, 0.80, 0.08⟩,
    ⟨0.801, 0.87, 0.09⟩,
    ⟨0.871, 0.94, 0.10⟩,
    ⟨0.941, 1.00, 0.11⟩ ]

/-- `ratio >= band.min && ratio <= band.max`: the band's closed interval
contains the ratio. -/
def bandContains (b : Band) (q : ℚ) : Prop := b.lo ≤ q ∧ q ≤ b.hi

instance (b : Band) (q : ℚ) : Decidable (bandContains b q) := by
  unfold bandContains; infer_instance

/-- The `for … break` scan of `computeWorksheetC`: the multiplier of the first
band whose `[min, max]` interval contains the ratio, `0.0` if none does. -/
def selectMult : List Band → ℚ → ℚ
  | [], _ => 0.0
  | b :: rest, q => if bandContains b q then b.mult else selectMult rest q

/-- Result record of `computeWorksheetC`. -/
structure WSCResult where
  ratio : ℚ
  mult : ℚ
  minSupport : ℤ
deriving DecidableEq, Repr

/-- Source: `computeWorksheetC(line3, line4)` — ratio of rounded line 3 to
rounded line 4 (`0` when line 4 rounds to `0`), banded multiplier, and
`minSupport = r0(L3 * mult)`. -/
def computeWorksheetC (line3 line4 : ℚ) : WSCResult :=
  let L3 := r0Q line3
  let L4 := r0Q line4
  let ratio := if L4 = 0 then 0 else (L3 : ℚ) / (L4 : ℚ)
  let mult := selectMult MIN_SUPPORT_BANDS ratio
  { ratio := ratio, mult := mult, minSupport := r0Q ((L3 : ℚ) * mult) }

/-- Result record of `computeWorksheetAPart1` (`wsC` is `null`, i.e. `none`,
when Worksheet C was not invoked). -/
structure WSA1Result where
  L1i : ℤ
  L2l : ℤ
  L3 : ℤ
  L4 : ℤ
  L5 : ℤ
  L6 : ℤ
  L7 : ℤ
  wsC : Option WSCResult
deriving DecidableEq, Repr

/-- Source: `computeWorksheetAPart1(grossAnnual, deductionsAnnual)` — Worksheet
A lines 1i–7 for one parent; line 6 comes from Worksheet C when line 5 ≤ 0 and
is `r0(0.12 * L3)` otherwise; line 7 is `r0(Math.max(L5, L6))`. -/
def computeWorksheetAPart1 (grossAnnual deductionsAnnual : ℚ) : WSA1Result :=
  let L1i := r0Q grossAnnual
  let L2l := r0Q deductionsAnnual
  let L3 := r0Q ((L1i : ℚ) - (L2l : ℚ))
  let L4 := PERSONAL_ALLOWANCE
  let L5 := r0Q (max 0 ((L3 : ℚ) - (L4 : ℚ)))
  if L5 ≤ 0 then
    let wsC := computeWorksheetC (L3 : ℚ) (L4 : ℚ)
    let L6 := wsC.minSupport
    { L1i := L1i, L2l := L2l, L3 := L3, L4 := L4, L5 := L5, L6 := L6,
      L7 := r0Q (max (L5 : ℚ) (L6 : ℚ)), wsC := some wsC }
  else
    let L6 := r0Q (0.12 * (L3 : ℚ))
    { L1i := L1i, L2l := L2l, L3 := L3, L4 := L4, L5 := L5, L6 := L6,
      L7 := r0Q (max (L5 : ℚ) (L6 : ℚ)), wsC := none }

/-- Tag recording which branch of `computeWorksheetBPart2ForChild` produced
the result: the full credit calculation (both parents over 110 overnights), or
one of the three early returns of the simple rule (mother has strictly more
overnights, father has strictly more overnights, or neither comparison holds). -/
inductive WSBBranch where
  | credit
  | mMoreTime
  | fMoreTime
  | equalDays
deriving DecidableEq, Repr

/-- Result record of `computeWorksheetBPart2ForChild`, together with the
executed branch. -/
structure WSB2Result where
  line12_M : ℤ
  line12_F : ℤ
  branch : WSBBranch
deriving DecidableEq, Repr

/-- Source: `computeWorksheetBPart2ForChild(mAnnualObl, fAnnualObl, daysM,
daysF)`.  Overnight counts are raw JS numbers: they are only compared (with
JS `>`) and, in the credit branch, subtracted/multiplied before being fed to
`r0`.  The source early-returns the simple-rule results when not both parents
are over 110 overnights; here the same three simple results are the `else`
arm of the `bothOver110` test. -/
def computeWorksheetBPart2ForChild (mAnnualObl fAnnualObl : ℚ)
    (daysM daysF : JSNum) : WSB2Result :=
  let L1_M := r0Q mAnnualObl
  let L1_F := r0Q fAnnualObl
  let M_over110 := JSNum.jgt daysM (.num 110)
  let F_over110 := JSNum.jgt daysF (.num 110)
  let bothOver110 := M_over110 && F_over110
  if bothOver110 then
    -- Both parents over 110 days → full credit calculation (lines 4–12)
    let L5_M := JSNum.jmax (.num 0) (JSNum.jsub daysM (.num 110))
    let L5_F := JSNum.jmax (.num 0) (JSNum.jsub daysF (.num 110))
    let L7_M := JSNum.jmul (.num CREDIT_FACTOR) L5_M
    let L7_F := JSNum.jmul (.num CREDIT_FACTOR) L5_F
    let L8_M := r0 (JSNum.jmul L7_M (.num (L1_M : ℚ)))
    let L8_F := r0 (JSNum.jmul L7_F (.num (L1_F : ℚ)))
    let L9_M := r0Q ((L1_M : ℚ) - (L8_M : ℚ))
    let L9_F := r0Q ((L1_F : ℚ) - (L8_F : ℚ))
    let diff := |L9_M - L9_F|
    let L10_M := if L9_F < L9_M then diff else 0
    let L10_F := if L9_M < L9_F then diff else 0
    { line12_M := min L10_M L1_M, line12_F := min L10_F L1_F,
      branch := .credit }
  else
    if JSNum.jgt daysM daysF then
      -- Mother has more time; father pays his full obligation
      { line12_M := 0, line12_F := L1_F, branch := .mMoreTime }
    else if JSNum.jgt daysF daysM then
      -- Father has more time; mother pays full obligation
      { line12_M := L1_M, line12_F := 0, branch := .fMoreTime }
    else
      -- Equal days (or incomparable): higher obligation pays the difference
      if L1_F < L1_M then
        { line12_M := L1_M - L1_F, line12_F := 0, branch := .equalDays }
      else if L1_M < L1_F then
        { line12_M := 0, line12_F := L1_F - L1_M, branch := .equalDays }
      else
        { line12_M := 0, line12_F := 0, branch := .equalDays }


/-- The `supplements` input object (fields default to `0` via `|| 0`). -/
structure Supplements where
  childcare : ℚ
  health : ℚ
  med : ℚ
  other : ℚ
deriving DecidableEq, Repr

/-- One parenting-schedule entry `{ daysA, daysB }` (overnights are raw JS
numbers, so non-finite form values can flow into Worksheet B). -/
structure Sched where
  daysA : JSNum
  daysB : JSNum
deriving DecidableEq, Repr

/-- The destructured parameter record of `runMontanaChildSupport`. -/
structure Params where
  mIncome : ℚ
  mDed : ℚ
  fIncome : ℚ
  fDed : ℚ
  numChildren : ℚ
  supplements : Supplements
  parenting : List Sched
deriving DecidableEq, Repr

/-- One entry of `perChildResults`. -/
structure PerChild where
  childIndex : ℕ
  annualM : ℤ
  annualF : ℤ
  monthlyM : ℚ
  monthlyF : ℚ
  daysM : JSNum
  daysF : JSNum
deriving DecidableEq, Repr

/-- Payer designation: the source uses the strings "M" / "F" or `null`. -/
inductive Parent where
  | M
  | F
deriving DecidableEq, Repr

/-- Source: `kids = Math.max(1, Math.min(8, numChildren || 1))`; the `|| 1`
replaces a falsy (zero) count by 1. -/
def kidsOf (p : Params) : ℚ :=
  max 1 (min 8 (if p.numChildren = 0 then 1 else p.numChildren))

/-- Source: `totalSupp` — sum of the four supplement fields. -/
def totalSuppOf (p : Params) : ℚ :=
  p.supplements.childcare + p.supplements.health + p.supplements.med +
    p.supplements.other

/-- Mother's Worksheet A part 1. -/
def mA1Of (p : Params) : WSA1Result := computeWorksheetAPart1 p.mIncome p.mDed

/-- Father's Worksheet A part 1. -/
def fA1Of (p : Params) : WSA1Result := computeWorksheetAPart1 p.fIncome p.fDed

/-- Source: `combinedL7 = r0(mA1.L7 + fA1.L7)`. -/
def combinedL7Of (p : Params) : ℤ :=
  r0Q (((mA1Of p).L7 : ℚ) + ((fA1Of p).L7 : ℚ))

/-- Source: `shareM = mA1.L7 / combinedL7` when `combinedL7 > 0`, else the
`0.5` fallback. -/
def shareMOf (p : Params) : ℚ :=
  if 0 < combinedL7Of p then ((mA1Of p).L7 : ℚ) / (combinedL7Of p : ℚ) else 0.5

/-- Father's share, with the same `0.5` fallback. -/
def shareFOf (p : Params) : ℚ :=
  if 0 < combinedL7Of p then ((fA1Of p).L7 : ℚ) / (combinedL7Of p : ℚ) else 0.5

/-- Source: `PRIMARY_ALLOWANCE_BY_CHILD[kids] || PRIMARY_ALLOWANCE_BY_CHILD[8]`. -/
def primaryTotalOf (p : Params) : ℤ :=
  (PRIMARY_ALLOWANCE_BY_CHILD (kidsOf p)).getD 24414

/-- Source: `SOLA_FACTOR_BY_CHILD[kids] || SOLA_FACTOR_BY_CHILD[8]`. -/
def solaFactorOf (p : Params) : ℚ :=
  (SOLA_FACTOR_BY_CHILD (kidsOf p)).getD 0.47

/-- `mPrimaryShare = r0(shareM * primaryTotal)`. -/
def mPrimaryShareOf (p : Params) : ℤ := r0Q (shareMOf p * (primaryTotalOf p : ℚ))

/-- `fPrimaryShare = r0(shareF * primaryTotal)`. -/
def fPrimaryShareOf (p : Params) : ℤ := r0Q (shareFOf p * (primaryTotalOf p : ℚ))

/-- `mSuppShare = r0(shareM * totalSupp)`. -/
def mSuppShareOf (p : Params) : ℤ := r0Q (shareMOf p * totalSuppOf p)

/-- `fSuppShare = r0(shareF * totalSupp)`. -/
def fSuppShareOf (p : Params) : ℤ := r0Q (shareFOf p * totalSuppOf p)

/-- `mIncomeForSola = r0(Math.max(0, mA1.L5 - mPrimaryShare - mSuppShare))`. -/
def mIncomeForSolaOf (p : Params) : ℤ :=
  r0Q (max 0 (((mA1Of p).L5 : ℚ) - (mPrimaryShareOf p : ℚ) - (mSuppShareOf p : ℚ)))

/-- Father's SOLA-eligible income. -/
def fIncomeForSolaOf (p : Params) : ℤ :=
  r0Q (max 0 (((fA1Of p).L5 : ℚ) - (fPrimaryShareOf p : ℚ) - (fSuppShareOf p : ℚ)))

/-- `mSOLA = r0(mIncomeForSola * solaFactor)`. -/
def mSOLAOf (p : Params) : ℤ := r0Q ((mIncomeForSolaOf p : ℚ) * solaFactorOf p)

/-- `fSOLA = r0(fIncomeForSola * solaFactor)`. -/
def fSOLAOf (p : Params) : ℤ := r0Q ((fIncomeForSolaOf p : ℚ) * solaFactorOf p)

/-- `totalAnnualSupportNeed = r0(primaryTotal + totalSupp + mSOLA + fSOLA)`. -/
def totalAnnualSupportNeedOf (p : Params) : ℤ :=
  r0Q ((primaryTotalOf p : ℚ) + totalSuppOf p + (mSOLAOf p : ℚ) + (fSOLAOf p : ℚ))

/-- `mGrossObl = r0(shareM * totalAnnualSupportNeed)`. -/
def mGrossOblOf (p : Params) : ℤ :=
  r0Q (shareMOf p * (totalAnnualSupportNeedOf p : ℚ))

/-- `fGrossObl = r0(shareF * totalAnnualSupportNeed)`. -/
def fGrossOblOf (p : Params) : ℤ :=
  r0Q (shareFOf p * (totalAnnualSupportNeedOf p : ℚ))

/-- `mAnnualAfterCredit = r0(Math.max(0, mGrossObl - mCredit))`, with
`mCredit = mSuppShare`. -/
def mAnnualAfterCreditOf (p : Params) : ℤ :=
  r0Q (max 0 ((mGrossOblOf p : ℚ) - (mSuppShareOf p : ℚ)))

/-- Father's net annual obligation after the supplement credit. -/
def fAnnualAfterCreditOf (p : Params) : ℤ :=
  r0Q (max 0 ((fGrossOblOf p : ℚ) - (fSuppShareOf p : ℚ)))

/-- `mPerChildBase = mAnnualAfterCredit / kids` (not re-rounded). -/
def mPerChildBaseOf (p : Params) : ℚ := (mAnnualAfterCreditOf p : ℚ) / kidsOf p

/-- `fPerChildBase = fAnnualAfterCredit / kids`. -/
def fPerChildBaseOf (p : Params) : ℚ := (fAnnualAfterCreditOf p : ℚ) / kidsOf p

/-- Number of loop iterations of `for (let i = 0; i < kids; i++)`: `⌈kids⌉`
(the clamped `kids` is positive but need not be an integer). -/
def nKidsOf (p : Params) : ℕ := (⌈kidsOf p⌉).toNat

/-- Source: `parenting[i] || parenting[0] || { daysA: 255, daysB: 110 }`. -/
def schedForOf (p : Params) (i : ℕ) : Sched :=
  match p.parenting.get? i with
  | some s => s
  | none =>
    match p.parenting.get? 0 with
    | some s => s
    | none => { daysA := .num 255, daysB := .num 110 }

/-- One iteration of the per-child loop: Worksheet B part 2 on the per-child
bases and the schedule for child `i`, annual amounts re-rounded with `r0` and
monthly amounts derived with `r2(x / 12)`. -/
def perChildOf (p : Params) (i : ℕ) : PerChild :=
  let sched := schedForOf p i
  let b2 := computeWorksheetBPart2ForChild (mPerChildBaseOf p) (fPerChildBaseOf p)
    sched.daysA sched.daysB
  let childAnnualM := r0Q ((b2.line12_M : ℚ))
  let childAnnualF := r0Q ((b2.line12_F : ℚ))
  { childIndex := i + 1,
    annualM := childAnnualM,
    annualF := childAnnualF,
    monthlyM := r2Q ((childAnnualM : ℚ) / 12),
    monthlyF := r2Q ((childAnnualF : ℚ) / 12),
    daysM := sched.daysA,
    daysF := sched.daysB }

/-- The `perChildResults` array. -/
def perChildResultsOf (p : Params) : List PerChild :=
  (List.range (nKidsOf p)).map (perChildOf p)

/-- `totalAnnualM = r0(sumAnnualM)` — sum of the mother's per-child annual
amounts. -/
def totalAnnualMOf (p : Params) : ℤ :=
  r0Q ((((perChildResultsOf p).map (fun c => c.annualM)).sum : ℚ))

/-- `totalAnnualF = r0(sumAnnualF)`. -/
def totalAnnualFOf (p : Params) : ℤ :=
  r0Q ((((perChildResultsOf p).map (fun c => c.annualF)).sum : ℚ))

/-- `totalMonthlyM = r2(totalAnnualM / 12)`. -/
def totalMonthlyMOf (p : Params) : ℚ := r2Q ((totalAnnualMOf p : ℚ) / 12)

/-- `totalMonthlyF = r2(totalAnnualF / 12)`. -/
def totalMonthlyFOf (p : Params) : ℚ := r2Q ((totalAnnualFOf p : ℚ) / 12)

/-- The payer determined from the monthly totals (`null` when equal). -/
def payerOf (p : Params) : Option Parent :=
  if totalMonthlyFOf p < totalMonthlyMOf p then some .M
  else if totalMonthlyMOf p < totalMonthlyFOf p then some .F
  else none

/-- The raw monthly transfer (higher monthly total minus lower), before the
final `r2`; `0` when the totals are equal. -/
def monthlyPreOf (p : Params) : ℚ :=
  if totalMonthlyFOf p < totalMonthlyMOf p then
    totalMonthlyMOf p - totalMonthlyFOf p
  else if totalMonthlyMOf p < totalMonthlyFOf p then
    totalMonthlyFOf p - totalMonthlyMOf p
  else 0

/-- The summary fields of the result object of `runMontanaChildSupport`
(together with the worksheet audit pieces the claims refer to). -/
structure MTResult where
  payer : Option Parent
  totalAnnual : ℤ
  totalMonthly : ℚ
  totalAnnualM : ℤ
  totalAnnualF : ℤ
  totalMonthlyM : ℚ
  totalMonthlyF : ℚ
  perChildResults : List PerChild
  mA1 : WSA1Result
  fA1 : WSA1Result
  combinedL7 : ℤ
  shareM : ℚ
  shareF : ℚ
deriving DecidableEq, Repr

/-- Source: `runMontanaChildSupport(params)` — the full pipeline; the final
transfer is `annualTransfer = r0(monthlyTransfer * 12)` computed from the raw
monthly difference, which is then itself re-rounded with `r2`. -/
def runMontanaChildSupport (p : Params) : MTResult :=
  { payer := payerOf p,
    totalAnnual := r0Q (monthlyPreOf p * 12),
    totalMonthly := r2Q (monthlyPreOf p),
    totalAnnualM := totalAnnualMOf p,
    totalAnnualF := totalAnnualFOf p,
    totalMonthlyM := totalMonthlyMOf p,
    totalMonthlyF := totalMonthlyFOf p,
    perChildResults := perChildResultsOf p,
    mA1 := mA1Of p,
    fA1 := fA1Of p,
    combinedL7 := combinedL7Of p,
    shareM := shareMOf p,
    shareF := shareFOf p }

/-! ### Basic facts about the rounding primitives -/

theorem r0Q_def (x : ℚ) : r0Q x = ⌊x + 1 / 2⌋ := rfl

theorem r0Q_intCast (n : ℤ) : r0Q (n : ℚ) = n := by
  rw [r0Q_def]
  rw [show ((n : ℚ) + 1 / 2) = 1 / 2 + (n : ℚ) by ring]
  rw [Int.floor_add_int]
  norm_num

theorem r0Q_nonneg {x : ℚ} (h : 0 ≤ x) : 0 ≤ r0Q x := by
  rw [r0Q_def]
  exact Int.le_floor.mpr (by push_cast; linarith)

theorem r0Q_max_intCast (a b : ℤ) : r0Q (max (a : ℚ) (b : ℚ)) = max a b := by
  rw [← Int.cast_max, r0Q_intCast]

/-! ### Worksheet A part 1: structural facts -/

theorem wsa1_L5_eq (g d : ℚ) :
    (computeWorksheetAPart1 g d).L5 =
      r0Q (max 0 ((r0Q ((r0Q g : ℚ) - (r0Q d : ℚ)) : ℚ) - (PERSONAL_ALLOWANCE : ℚ))) := by
  simp only [computeWorksheetAPart1]
  split <;> rfl

theorem wsa1_L5_nonneg (g d : ℚ) : 0 ≤ (computeWorksheetAPart1 g d).L5 := by
  rw [wsa1_L5_eq]
  exact r0Q_nonneg (le_max_left _ _)

theorem wsa1_L7_eq (g d : ℚ) :
    (computeWorksheetAPart1 g d).L7 =
      max (computeWorksheetAPart1 g d).L5 (computeWorksheetAPart1 g d).L6 := by
  simp only [computeWorksheetAPart1]
  split <;> exact r0Q_max_intCast _ _

theorem wsa1_L7_nonneg (g d : ℚ) : 0 ≤ (computeWorksheetAPart1 g d).L7 := by
  rw [wsa1_L7_eq]
  exact le_trans (wsa1_L5_nonneg g d) (le_max_left _ _)

/-- C2: for non-negative gross income and deductions, `computeWorksheetAPart1`
computes line 6 via Worksheet C exactly when line 5 (income available for
support) is ≤ 0 and as `r0(0.12 * L3)` otherwise, and line 7 is the maximum of
lines 5 and 6 and is non-negative. -/
theorem claim_C2 (g d : ℚ) (hg : 0 ≤ g) (hd : 0 ≤ d) :
    ((computeWorksheetAPart1 g d).wsC.isSome ↔ (computeWorksheetAPart1 g d).L5 ≤ 0) ∧
    ((computeWorksheetAPart1 g d).L5 ≤ 0 →
      (computeWorksheetAPart1 g d).L6 =
        (computeWorksheetC ((computeWorksheetAPart1 g d).L3 : ℚ)
          ((PERSONAL_ALLOWANCE : ℤ) : ℚ)).minSupport) ∧
    (0 < (computeWorksheetAPart1 g d).L5 →
      (computeWorksheetAPart1 g d).L6 =
        r0Q (0.12 * ((computeWorksheetAPart1 g d).L3 : ℚ))) ∧
    (computeWorksheetAPart1 g d).L7 =
      max (computeWorksheetAPart1 g d).L5 (computeWorksheetAPart1 g d).L6 ∧
    0 ≤ (computeWorksheetAPart1 g d).L7 := by
  refine ⟨?_, ?_, ?_, wsa1_L7_eq g d, wsa1_L7_nonneg g d⟩ <;>
    by_cases hc : r0Q (max 0 ((r0Q ((r0Q g : ℚ) - (r0Q d : ℚ)) : ℚ) -
      (PERSONAL_ALLOWANCE : ℚ))) ≤ 0
  · simp [computeWorksheetAPart1, hc]
  · simp [computeWorksheetAPart1, hc]
  · simp [computeWorksheetAPart1, hc]
  · intro h5
    exfalso
    apply hc
    have h := wsa1_L5_eq g d
    rw [← h]
    exact h5
  · intro h5
    exfalso
    have h := wsa1_L5_eq g d
    rw [h] at h5
    omega
  · simp [computeWorksheetAPart1, hc]

/-- Witness for C2 at gross 30000, deductions 5000. -/
theorem claim_C2_witness :
    ((computeWorksheetAPart1 (30000 : ℚ) 5000).wsC.isSome ↔
      (computeWorksheetAPart1 (30000 : ℚ) 5000).L5 ≤ 0) ∧
    0 ≤ (computeWorksheetAPart1 (30000 : ℚ) 5000).L7 :=
  ⟨(claim_C2 30000 5000 (by norm_num) (by norm_num)).1,
   (claim_C2 30000 5000 (by norm_num) (by norm_num)).2.2.2.2⟩

/-- C8: the whole-unit rounding primitive `r0` is round-half-up on every
finite value: a fractional part < 1/2 rounds to the floor-side integer, a
fractional part ≥ 1/2 (including exactly .50) rounds to the next integer up. -/
theorem claim_C8 (q : ℚ) :
    (Int.fract q < 1 / 2 → r0 (.num q) = ⌊q⌋) ∧
    (1 / 2 ≤ Int.fract q → r0 (.num q) = ⌊q⌋ + 1) := by
  have hq : q = (⌊q⌋ : ℚ) + Int.fract q := (Int.floor_add_fract q).symm
  have hr : r0 (.num q) = ⌊q + 1 / 2⌋ := rfl
  have hf0 : 0 ≤ Int.fract q := Int.fract_nonneg q
  have hf1 : Int.fract q < 1 := Int.fract_lt_one q
  constructor
  · intro h
    rw [hr]
    nth_rewrite 1 [hq]
    rw [add_assoc, add_comm, Int.floor_add_int]
    have : ⌊Int.fract q + 1 / 2⌋ = 0 := Int.floor_eq_zero_iff.mpr ⟨by linarith, by linarith⟩
    omega
  · intro h
    rw [hr]
    nth_rewrite 1 [hq]
    rw [add_assoc, add_comm, Int.floor_add_int]
    have : ⌊Int.fract q + 1 / 2⌋ = 1 := by
      rw [Int.floor_eq_iff]
      push_cast
      constructor <;> linarith
    omega

/-- Witness for C8: 2.5 rounds up to 3 and 3.5 rounds up to 4 (not to-even). -/
theorem claim_C8_witness :
    r0 (.num (5 / 2)) = 3 ∧ r0 (.num (7 / 2)) = 4 := by
  constructor
  · have h := (claim_C8 (5 / 2)).2 (by rw [Int.fract] <;> norm_num)
    rw [h]
    norm_num
  · have h := (claim_C8 (7 / 2)).2 (by rw [Int.fract] <;> norm_num)
    rw [h]
    norm_num

/-! ### Worksheet B part 2: branch structure -/

theorem jgt_num_num (a b : ℚ) : JSNum.jgt (.num a) (.num b) = decide (b < a) := rfl

/-- C3: the shared-parenting credit threshold is strictly greater than 110
overnights: with exactly 110 overnights for a parent the credit branch never
runs (whatever the other parent's overnights, finite or not); with 111
overnights it runs exactly when the other parent is also over 110, and
otherwise the simple majority-time branch runs with the 111-overnight parent
as the majority parent. -/
theorem claim_C3 :
    (∀ (m f : ℚ) (d : JSNum),
      (computeWorksheetBPart2ForChild m f (.num 110) d).branch ≠ .credit ∧
      (computeWorksheetBPart2ForChild m f d (.num 110)).branch ≠ .credit) ∧
    (∀ (m f q : ℚ), 110 < q →
      (computeWorksheetBPart2ForChild m f (.num 111) (.num q)).branch = .credit ∧
      (computeWorksheetBPart2ForChild m f (.num q) (.num 111)).branch = .credit) ∧
    (∀ (m f q : ℚ), q ≤ 110 →
      (computeWorksheetBPart2ForChild m f (.num 111) (.num q)).branch = .mMoreTime ∧
      (computeWorksheetBPart2ForChild m f (.num q) (.num 111)).branch = .fMoreTime) := by
  have h110 : JSNum.jgt (.num 110) (.num 110) = false := by
    rw [jgt_num_num]
    norm_num
  refine ⟨fun m f d => ⟨?_, ?_⟩, fun m f q hq => ⟨?_, ?_⟩, fun m f q hq => ⟨?_, ?_⟩⟩
  · simp only [computeWorksheetBPart2ForChild, h110, Bool.false_and, Bool.false_eq_true,
      if_false]
    split
    · simp
    · split
      · simp
      · split
        · simp
        · split <;> simp
  · simp only [computeWorksheetBPart2ForChild, h110, Bool.and_false, Bool.false_eq_true,
      if_false]
    split
    · simp
    · split
      · simp
      · split
        · simp
        · split <;> simp
  · have hM : JSNum.jgt (.num (111 : ℚ)) (.num 110) = true := by
      rw [jgt_num_num]
      norm_num
    have hF : JSNum.jgt (.num q) (.num 110) = true := by
      rw [jgt_num_num]
      simpa using hq
    simp [computeWorksheetBPart2ForChild, hM, hF]
  · have hM : JSNum.jgt (.num q) (.num 110) = true := by
      rw [jgt_num_num]
      simpa using hq
    have hF : JSNum.jgt (.num (111 : ℚ)) (.num 110) = true := by
      rw [jgt_num_num]
      norm_num
    simp [computeWorksheetBPart2ForChild, hM, hF]
  · have hF : JSNum.jgt (.num q) (.num 110) = false := by
      rw [jgt_num_num]
      simpa using not_lt.mpr hq
    have hMF : JSNum.jgt (.num (111 : ℚ)) (.num q) = true := by
      rw [jgt_num_num]
      simp only [decide_eq_true_eq]
      linarith
    simp [computeWorksheetBPart2ForChild, hF, hMF]
  · have hM : JSNum.jgt (.num q) (.num 110) = false := by
      rw [jgt_num_num]
      simpa using not_lt.mpr hq
    have hMF : JSNum.jgt (.num q) (.num (111 : ℚ)) = false := by
      rw [jgt_num_num]
      simp only [decide_eq_false_iff_not]
      push_neg
      linarith
    have hFM : JSNum.jgt (.num (111 : ℚ)) (.num q) = true := by
      rw [jgt_num_num]
      simp only [decide_eq_true_eq]
      linarith
    simp [computeWorksheetBPart2ForChild, hM, hMF, hFM]

/-- Witness for C3 at concrete overnight counts. -/
theorem claim_C3_witness :
    (computeWorksheetBPart2ForChild (1200 : ℚ) 1000 (.num 110) (.num 255)).branch ≠ .credit ∧
    (computeWorksheetBPart2ForChild (1200 : ℚ) 1000 (.num 111) (.num 200)).branch = .credit ∧
    (computeWorksheetBPart2ForChild (1200 : ℚ) 1000 (.num 111) (.num 100)).branch = .mMoreTime :=
  ⟨(claim_C3.1 1200 1000 (.num 255)).1,
   (claim_C3.2.1 1200 1000 200 (by norm_num)).1,
   (claim_C3.2.2 1200 1000 100 (by norm_num)).1⟩

theorem r0Q_intSub (a b : ℤ) : r0Q ((a : ℚ) - (b : ℚ)) = a - b := by
  rw [show ((a : ℚ) - (b : ℚ)) = ((a - b : ℤ) : ℚ) by push_cast; ring, r0Q_intCast]

theorem r0_num_eq_r0Q (x : ℚ) : r0 (.num x) = r0Q x := rfl

/-- C10: with non-negative base obligations, every branch of the per-child
Worksheet B adjuster leaves at least one parent owing exactly 0 for the
child. -/
theorem claim_C10 (m f : ℚ) (hm : 0 ≤ m) (hf : 0 ≤ f) (dM dF : JSNum) :
    (computeWorksheetBPart2ForChild m f dM dF).line12_M = 0 ∨
    (computeWorksheetBPart2ForChild m f dM dF).line12_F = 0 := by
  have hL1M : 0 ≤ r0Q m := r0Q_nonneg hm
  have hL1F : 0 ≤ r0Q f := r0Q_nonneg hf
  simp only [computeWorksheetBPart2ForChild]
  split_ifs with h0 h1 h2 h3 h4 h5 h6 h7 <;>
    first
      | exact Or.inl (min_eq_left hL1M)
      | exact Or.inr (min_eq_left hL1F)
      | exact Or.inl rfl
      | exact Or.inr rfl
      | (exfalso; omega)

/-- Witness for C10 at concrete inputs (credit branch). -/
theorem claim_C10_witness :
    (computeWorksheetBPart2ForChild (1200 : ℚ) 1000 (.num 150) (.num 215)).line12_M = 0 ∨
    (computeWorksheetBPart2ForChild (1200 : ℚ) 1000 (.num 150) (.num 215)).line12_F = 0 :=
  claim_C10 1200 1000 (by norm_num) (by norm_num) (.num 150) (.num 215)

/-- C4: in the credit branch (both parents over 110 overnights), each parent's
credited amount is `r0(0.0069 * excessOvernights * ownBaseObligation)`, the
adjusted obligation is the base minus the credited amount, the parent with the
larger adjusted obligation owes the positive difference of the two adjusted
obligations capped at their own base obligation, and the other parent owes 0. -/
theorem claim_C4 (m f dM dF : ℚ) (adjM adjF : ℤ) (hm : 0 ≤ m) (hf : 0 ≤ f)
    (hdM : 110 < dM) (hdF : 110 < dF)
    (hadjM : adjM = r0Q m - r0Q (CREDIT_FACTOR * (dM - 110) * (r0Q m : ℚ)))
    (hadjF : adjF = r0Q f - r0Q (CREDIT_FACTOR * (dF - 110) * (r0Q f : ℚ))) :
    (computeWorksheetBPart2ForChild m f (.num dM) (.num dF)).branch = .credit ∧
    (adjF < adjM →
      (computeWorksheetBPart2ForChild m f (.num dM) (.num dF)).line12_M =
        min (adjM - adjF) (r0Q m) ∧
      (computeWorksheetBPart2ForChild m f (.num dM) (.num dF)).line12_F = 0) ∧
    (adjM < adjF →
      (computeWorksheetBPart2ForChild m f (.num dM) (.num dF)).line12_F =
        min (adjF - adjM) (r0Q f) ∧
      (computeWorksheetBPart2ForChild m f (.num dM) (.num dF)).line12_M = 0) ∧
    (adjM = adjF →
      (computeWorksheetBPart2ForChild m f (.num dM) (.num dF)).line12_M = 0 ∧
      (computeWorksheetBPart2ForChild m f (.num dM) (.num dF)).line12_F = 0) := by
  have hM : JSNum.jgt (.num dM) (.num 110) = true := by
    rw [jgt_num_num]
    simpa using hdM
  have hF : JSNum.jgt (.num dF) (.num 110) = true := by
    rw [jgt_num_num]
    simpa using hdF
  have hmaxM : max (0 : ℚ) (dM - 110) = dM - 110 := max_eq_right (by linarith)
  have hmaxF : max (0 : ℚ) (dF - 110) = dF - 110 := max_eq_right (by linarith)
  simp only [computeWorksheetBPart2ForChild, hM, hF, Bool.and_self, if_true,
    JSNum.jsub, JSNum.jmax, JSNum.jmul, hmaxM, hmaxF, r0_num_eq_r0Q, r0Q_intSub]
  rw [← hadjM, ← hadjF]
  refine ⟨by trivial, fun h => ?_, fun h => ?_, fun h => ?_⟩
  · split_ifs <;>
      first
        | (exfalso; omega)
        | (rw [abs_of_pos (by omega)]; exact ⟨rfl, min_eq_left (r0Q_nonneg hf)⟩)
  · split_ifs <;>
      first
        | (exfalso; omega)
        | (rw [abs_of_neg (by omega), neg_sub]; exact ⟨rfl, min_eq_left (r0Q_nonneg hm)⟩)
  · split_ifs <;>
      first
        | (exfalso; omega)
        | exact ⟨min_eq_left (r0Q_nonneg hm), min_eq_left (r0Q_nonneg hf)⟩

/-- Witness for C4 at concrete inputs (overnights 150/215, bases 1200/1000). -/
theorem claim_C4_witness :
    (computeWorksheetBPart2ForChild (1200 : ℚ) 1000 (.num 150) (.num 215)).branch = .credit :=
  (claim_C4 1200 1000 150 215
      (1200 - r0Q (CREDIT_FACTOR * (150 - 110) * ((r0Q 1200 : ℤ) : ℚ)))
      (1000 - r0Q (CREDIT_FACTOR * (215 - 110) * ((r0Q 1000 : ℤ) : ℚ)))
      (by norm_num) (by norm_num) (by norm_num) (by norm_num)
      (by norm_num [r0Q, r0]) (by norm_num [r0Q, r0])).1

/-! ### Worksheet C band table: selection, disjointness and the gaps -/

/-- First-match scan over a band list whose intervals are pairwise disjoint
(in order): either no band contains the ratio and the multiplier defaults to
0, or a unique band contains it and its multiplier is returned. -/
theorem selectMult_spec (l : List Band) (hp : l.Pairwise (fun a b => a.hi < b.lo))
    (q : ℚ) :
    ((∀ b ∈ l, ¬ bandContains b q) ∧ selectMult l q = 0) ∨
    (∃ b ∈ l, bandContains b q ∧ selectMult l q = b.mult ∧
      ∀ b2 ∈ l, bandContains b2 q → b2 = b) := by
  induction l with
  | nil =>
    left
    constructor
    · intro b hb
      exact absurd hb (List.not_mem_nil b)
    · norm_num [selectMult]
  | cons b rest ih =>
    rcases List.pairwise_cons.mp hp with ⟨hb, hrest⟩
    by_cases hc : bandContains b q
    · right
      refine ⟨b, List.mem_cons_self b rest, hc, by simp [selectMult, hc], ?_⟩
      intro b2 hb2 hc2
      rcases List.mem_cons.mp hb2 with h | h
      · exact h
      · exfalso
        have h1 := hb b2 h
        exact absurd hc2 (fun hcc => by
          rcases hc with ⟨_, hc2'⟩
          rcases hcc with ⟨hcc1, _⟩
          linarith)
    · rcases ih hrest with ⟨hnone, heq⟩ | ⟨b1, hmem, hc1, heq, huniq⟩
      · left
        constructor
        · intro b2 hb2
          rcases List.mem_cons.mp hb2 with h | h
          · rw [h]
            exact hc
          · exact hnone b2 h
        · simp [selectMult, hc, heq]
      · right
        refine ⟨b1, List.mem_cons_of_mem b hmem, hc1, by simp [selectMult, hc, heq], ?_⟩
        intro b2 hb2 hc2
        rcases List.mem_cons.mp hb2 with h | h
        · exfalso
          rw [h] at hc2
          exact hc hc2
        · exact huniq b2 h hc2

/-- The eleven open gaps between consecutive bands of `MIN_SUPPORT_BANDS`:
each band's `max` and the next band's `min` differ by `0.001`, so these
ratios match no band. -/
def inBandGap (q : ℚ) : Prop :=
  (0.25 < q ∧ q < 0.251) ∨ (0.31 < q ∧ q < 0.311) ∨ (0.38 < q ∧ q < 0.381) ∨
  (0.45 < q ∧ q < 0.451) ∨ (0.52 < q ∧ q < 0.521) ∨ (0.59 < q ∧ q < 0.591) ∨
  (0.66 < q ∧ q < 0.661) ∨ (0.73 < q ∧ q < 0.731) ∨ (0.80 < q ∧ q < 0.801) ∨
  (0.87 < q ∧ q < 0.871) ∨ (0.94 < q ∧ q < 0.941)

instance (q : ℚ) : Decidable (inBandGap q) := by
  unfold inBandGap; infer_instance

theorem bands_pairwise : MIN_SUPPORT_BANDS.Pairwise (fun a b => a.hi < b.lo) := by
  unfold MIN_SUPPORT_BANDS
  norm_num [List.pairwise_cons]

/-- Every ratio in `[0, 1]` is contained in some band or lies in one of the
eleven open gaps. -/
theorem bands_cover_or_gap (q : ℚ) (h0 : 0 ≤ q) (h1 : q ≤ 1) :
    (∃ b ∈ MIN_SUPPORT_BANDS, bandContains b q) ∨ inBandGap q := by
  by_cases hg : inBandGap q
  · exact Or.inr hg
  · left
    unfold inBandGap at hg
    push_neg at hg
    obtain ⟨g1, g2, g3, g4, g5, g6, g7, g8, g9, g10, g11⟩ := hg
    unfold MIN_SUPPORT_BANDS
    rcases le_or_lt q 0.25 with h | h
    · exact ⟨⟨0.0, 0.25, 0.00⟩, by norm_num, le_of_eq_of_le (by norm_num) h0, h⟩
    rcases le_or_lt q 0.31 with h2 | h2
    · exact ⟨⟨0.251, 0.31, 0.01⟩, by norm_num, g1 h, h2⟩
    rcases le_or_lt q 0.38 with h3 | h3
    · exact ⟨⟨0.311, 0.38, 0.02⟩, by norm_num, g2 h2, h3⟩
    rcases le_or_lt q 0.45 with h4 | h4
    · exact ⟨⟨0.381, 0.45, 0.03⟩, by norm_num, g3 h3, h4⟩
    rcases le_or_lt q 0.52 with h5 | h5
    · exact ⟨⟨0.451, 0.52, 0.04⟩, by norm_num, g4 h4, h5⟩
    rcases le_or_lt q 0.59 with h6 | h6
    · exact ⟨⟨0.521, 0.59, 0.05⟩, by norm_num, g5 h5, h6⟩
    rcases le_or_lt q 0.66 with h7 | h7
    · exact ⟨⟨0.591, 0.66, 0.06⟩, by norm_num, g6 h6, h7⟩
    rcases le_or_lt q 0.73 with h8 | h8
    · exact ⟨⟨0.661, 0.73, 0.07⟩, by norm_num, g7 h7, h8⟩
    rcases le_or_lt q 0.80 with h9 | h9
    · exact ⟨⟨0.731, 0.80, 0.08⟩, by norm_num, g8 h8, h9⟩
    rcases le_or_lt q 0.87 with h10 | h10
    · exact ⟨⟨0.801, 0.87, 0.09⟩, by norm_num, g9 h9, h10⟩
    rcases le_or_lt q 0.94 with h11 | h11
    · exact ⟨⟨0.871, 0.94, 0.10⟩, by norm_num, g10 h10, h11⟩
    · exact ⟨⟨0.941, 1.00, 0.11⟩, by norm_num, g11 h11,
        le_of_le_of_eq h1 (by norm_num)⟩

/-- C1 counterexample: `computeWorksheetC 621 2000` produces the ratio
`0.3105`, which lies in `[0, 1]` but is contained in no band of
`MIN_SUPPORT_BANDS` (the table jumps from one band's max `.31` to the next
band's min `.311`), so the claimed total contiguous cover of `[0, 1]` fails;
the multiplier falls back to `0`. -/
theorem claim_C1_counterexample :
    (0 : ℚ) ≤ (computeWorksheetC 621 2000).ratio ∧
    (computeWorksheetC 621 2000).ratio ≤ 1 ∧
    (∀ b ∈ MIN_SUPPORT_BANDS, ¬ bandContains b (computeWorksheetC 621 2000).ratio) ∧
    (computeWorksheetC 621 2000).mult = 0 := by
  have hr : (computeWorksheetC 621 2000).ratio = 0.3105 := by
    norm_num [computeWorksheetC, r0Q, r0]
  refine ⟨by rw [hr]; norm_num, by rw [hr]; norm_num, ?_, ?_⟩
  · rw [hr]
    intro b hb
    fin_cases hb <;> (rintro ⟨hb1, hb2⟩; norm_num at hb1 hb2)
  · have hm : (computeWorksheetC 621 2000).mult =
        selectMult MIN_SUPPORT_BANDS (computeWorksheetC 621 2000).ratio := rfl
    rw [hm, hr]
    norm_num [selectMult, MIN_SUPPORT_BANDS, bandContains]

/-- C1 (amended): the bands of `MIN_SUPPORT_BANDS` are pairwise disjoint, and
for every ratio in `[0, 1]` either exactly one band contains the ratio and
`computeWorksheetC` returns that band's multiplier, or the ratio lies in one
of the eleven open width-`0.001` gaps between consecutive bands and the
multiplier defaults to `0`.  (The claim's "no gap" part is false; everything
else holds.) -/
theorem claim_C1_amended (line3 line4 : ℚ)
    (h0 : 0 ≤ (computeWorksheetC line3 line4).ratio)
    (h1 : (computeWorksheetC line3 line4).ratio ≤ 1) :
    (∃ b ∈ MIN_SUPPORT_BANDS, bandContains b (computeWorksheetC line3 line4).ratio ∧
      (computeWorksheetC line3 line4).mult = b.mult ∧
      ∀ b2 ∈ MIN_SUPPORT_BANDS,
        bandContains b2 (computeWorksheetC line3 line4).ratio → b2 = b) ∨
    (inBandGap (computeWorksheetC line3 line4).ratio ∧
      (computeWorksheetC line3 line4).mult = 0) := by
  have hm : (computeWorksheetC line3 line4).mult =
      selectMult MIN_SUPPORT_BANDS (computeWorksheetC line3 line4).ratio := rfl
  rw [hm]
  rcases selectMult_spec MIN_SUPPORT_BANDS bands_pairwise
      (computeWorksheetC line3 line4).ratio with ⟨hnone, heq⟩ | hex
  · right
    refine ⟨?_, heq⟩
    rcases bands_cover_or_gap (computeWorksheetC line3 line4).ratio h0 h1 with
      ⟨b, hmem, hc⟩ | hgap
    · exact absurd hc (hnone b hmem)
    · exact hgap
  · left
    exact hex

/-- Witness for the amended C1 at `computeWorksheetC 1 2` (ratio `0.5`). -/
theorem claim_C1_witness :
    (0 : ℚ) ≤ (computeWorksheetC 1 2).ratio ∧ (computeWorksheetC 1 2).ratio ≤ 1 ∧
    ((∃ b ∈ MIN_SUPPORT_BANDS, bandContains b (computeWorksheetC 1 2).ratio ∧
        (computeWorksheetC 1 2).mult = b.mult ∧
        ∀ b2 ∈ MIN_SUPPORT_BANDS, bandContains b2 (computeWorksheetC 1 2).ratio → b2 = b) ∨
      (inBandGap (computeWorksheetC 1 2).ratio ∧ (computeWorksheetC 1 2).mult = 0)) := by
  have hr : (computeWorksheetC 1 2).ratio = 1 / 2 := by
    norm_num [computeWorksheetC, r0Q, r0]
  exact ⟨by rw [hr]; norm_num, by rw [hr]; norm_num,
    claim_C1_amended 1 2 (by rw [hr]; norm_num) (by rw [hr]; norm_num)⟩

/-! ### The combined-parents resolver: shares -/

theorem combinedL7_eq (p : Params) :
    combinedL7Of p = (mA1Of p).L7 + (fA1Of p).L7 := by
  unfold combinedL7Of
  rw [show ((mA1Of p).L7 : ℚ) + ((fA1Of p).L7 : ℚ) =
      (((mA1Of p).L7 + (fA1Of p).L7 : ℤ) : ℚ) by push_cast; ring, r0Q_intCast]

/-- C5: the resolver's shares always sum to exactly 1; when the combined line
7 is positive each share is own line 7 over combined line 7, and when both
parents' line 7 are 0 both shares are exactly 0.5. -/
theorem claim_C5 (p : Params) :
    (runMontanaChildSupport p).shareM + (runMontanaChildSupport p).shareF = 1 ∧
    (0 < (runMontanaChildSupport p).combinedL7 →
      (runMontanaChildSupport p).shareM =
        (((runMontanaChildSupport p).mA1.L7 : ℤ) : ℚ) /
          (((runMontanaChildSupport p).combinedL7 : ℤ) : ℚ) ∧
      (runMontanaChildSupport p).shareF =
        (((runMontanaChildSupport p).fA1.L7 : ℤ) : ℚ) /
          (((runMontanaChildSupport p).combinedL7 : ℤ) : ℚ)) ∧
    ((runMontanaChildSupport p).mA1.L7 = 0 ∧ (runMontanaChildSupport p).fA1.L7 = 0 →
      (runMontanaChildSupport p).shareM = 1 / 2 ∧
      (runMontanaChildSupport p).shareF = 1 / 2) := by
  have hsm : (runMontanaChildSupport p).shareM = shareMOf p := rfl
  have hsf : (runMontanaChildSupport p).shareF = shareFOf p := rfl
  have hcb : (runMontanaChildSupport p).combinedL7 = combinedL7Of p := rfl
  have hma : (runMontanaChildSupport p).mA1 = mA1Of p := rfl
  have hfa : (runMontanaChildSupport p).fA1 = fA1Of p := rfl
  rw [hsm, hsf, hcb, hma, hfa]
  refine ⟨?_, fun hc => ?_, fun hz => ?_⟩
  · by_cases hc : 0 < combinedL7Of p
    · rw [shareMOf, shareFOf, if_pos hc, if_pos hc, div_add_div_same]
      rw [show ((mA1Of p).L7 : ℚ) + ((fA1Of p).L7 : ℚ) = ((combinedL7Of p : ℤ) : ℚ) by
        rw [combinedL7_eq]; push_cast; ring]
      rw [div_self]
      exact_mod_cast hc.ne.symm
    · rw [shareMOf, shareFOf, if_neg hc, if_neg hc]
      norm_num
  · rw [shareMOf, shareFOf, if_pos hc, if_pos hc]
    exact ⟨rfl, rfl⟩
  · have hc : combinedL7Of p = 0 := by
      rw [combinedL7_eq, hz.1, hz.2]
      norm_num
    rw [shareMOf, shareFOf, hc]
    norm_num

/-- Witness is not needed for C5 (no hypotheses), but an inner implication is
present; instance at two zero-income parents where both line 7 are zero. -/
def paramsZero : Params :=
  { mIncome := 0, mDed := 0, fIncome := 0, fDed := 0, numChildren := 1,
    supplements := { childcare := 0, health := 0, med := 0, other := 0 },
    parenting := [{ daysA := .num 255, daysB := .num 110 }] }

theorem claim_C5_witness :
    (runMontanaChildSupport paramsZero).shareM = 1 / 2 ∧
    (runMontanaChildSupport paramsZero).shareF = 1 / 2 :=
  (claim_C5 paramsZero).2.2
    (by constructor <;>
      norm_num [runMontanaChildSupport, mA1Of, fA1Of, computeWorksheetAPart1,
        computeWorksheetC, selectMult, MIN_SUPPORT_BANDS, bandContains, paramsZero,
        r0Q, r0, PERSONAL_ALLOWANCE])

/-! ### The aggregator: payer and transfer -/

theorem r2Q_def (x : ℚ) : r2Q x = (⌊x * 100 + 1 / 2⌋ : ℚ) / 100 := rfl

/-- The difference of two cent-rounded amounts is itself fixed by `r2`. -/
theorem r2Q_sub_r2Q (a b : ℚ) : r2Q (r2Q a - r2Q b) = r2Q a - r2Q b := by
  rw [r2Q_def a, r2Q_def b, div_sub_div_same, r2Q_def]
  rw [show ((⌊a * 100 + 1 / 2⌋ : ℚ) - (⌊b * 100 + 1 / 2⌋ : ℚ)) =
      ((⌊a * 100 + 1 / 2⌋ - ⌊b * 100 + 1 / 2⌋ : ℤ) : ℚ) by push_cast; ring]
  rw [div_mul_cancel₀ _ (by norm_num : (100 : ℚ) ≠ 0)]
  rw [← r0Q_def, r0Q_intCast]

theorem r2Q_zero : r2Q 0 = 0 := by
  rw [r2Q_def]
  norm_num

/-- C6: the final payer is the parent with the strictly larger total monthly
owed amount, the monthly transfer is the positive difference of the two
monthly totals rounded to cents, payer is none and the transfer 0 when the
monthly totals are equal, and the annual transfer is `r0` of 12 times the
monthly transfer. -/
theorem claim_C6 (p : Params) :
    ((runMontanaChildSupport p).totalMonthlyF < (runMontanaChildSupport p).totalMonthlyM →
      (runMontanaChildSupport p).payer = some .M ∧
      (runMontanaChildSupport p).totalMonthly =
        r2Q ((runMontanaChildSupport p).totalMonthlyM -
          (runMontanaChildSupport p).totalMonthlyF)) ∧
    ((runMontanaChildSupport p).totalMonthlyM < (runMontanaChildSupport p).totalMonthlyF →
      (runMontanaChildSupport p).payer = some .F ∧
      (runMontanaChildSupport p).totalMonthly =
        r2Q ((runMontanaChildSupport p).totalMonthlyF -
          (runMontanaChildSupport p).totalMonthlyM)) ∧
    ((runMontanaChildSupport p).totalMonthlyM = (runMontanaChildSupport p).totalMonthlyF →
      (runMontanaChildSupport p).payer = none ∧
      (runMontanaChildSupport p).totalMonthly = 0) ∧
    (runMontanaChildSupport p).totalAnnual =
      r0Q ((runMontanaChildSupport p).totalMonthly * 12) := by
  have hpm : (runMontanaChildSupport p).totalMonthlyM = totalMonthlyMOf p := rfl
  have hpf : (runMontanaChildSupport p).totalMonthlyF = totalMonthlyFOf p := rfl
  have hpay : (runMontanaChildSupport p).payer = payerOf p := rfl
  have hmon : (runMontanaChildSupport p).totalMonthly = r2Q (monthlyPreOf p) := rfl
  have hann : (runMontanaChildSupport p).totalAnnual = r0Q (monthlyPreOf p * 12) := rfl
  have hfix : r2Q (monthlyPreOf p) = monthlyPreOf p := by
    unfold monthlyPreOf
    split_ifs with h1 h2
    · rw [show totalMonthlyMOf p - totalMonthlyFOf p =
          r2Q ((totalAnnualMOf p : ℚ) / 12) - r2Q ((totalAnnualFOf p : ℚ) / 12) from rfl]
      exact r2Q_sub_r2Q _ _
    · rw [show totalMonthlyFOf p - totalMonthlyMOf p =
          r2Q ((totalAnnualFOf p : ℚ) / 12) - r2Q ((totalAnnualMOf p : ℚ) / 12) from rfl]
      exact r2Q_sub_r2Q _ _
    · exact r2Q_zero
  rw [hpm, hpf, hpay, hmon, hann]
  refine ⟨fun h => ?_, fun h => ?_, fun h => ?_, ?_⟩
  · constructor
    · unfold payerOf
      rw [if_pos h]
    · unfold monthlyPreOf
      rw [if_pos h]
  · constructor
    · unfold payerOf
      rw [if_neg (by exact not_lt.mpr h.le), if_pos h]
    · unfold monthlyPreOf
      rw [if_neg (by exact not_lt.mpr h.le), if_pos h]
  · constructor
    · unfold payerOf
      rw [if_neg (by rw [h]; exact lt_irrefl _), if_neg (by rw [h]; exact lt_irrefl _)]
    · unfold monthlyPreOf
      rw [if_neg (by rw [h]; exact lt_irrefl _), if_neg (by rw [h]; exact lt_irrefl _)]
      exact r2Q_zero
  · rw [hfix]

/-- Concrete case: mother 60000/0, father 40000/0, one child, no supplements,
majority time with the mother (255/110 overnights). -/
def paramsMajority : Params :=
  { mIncome := 60000, mDed := 0, fIncome := 40000, fDed := 0, numChildren := 1,
    supplements := { childcare := 0, health := 0, med := 0, other := 0 },
    parenting := [{ daysA := .num 255, daysB := .num 110 }] }

theorem claim_C6_witness :
    (runMontanaChildSupport paramsMajority).payer = some Parent.F ∧
    (runMontanaChildSupport paramsMajority).totalMonthly =
      r2Q ((runMontanaChildSupport paramsMajority).totalMonthlyF -
        (runMontanaChildSupport paramsMajority).totalMonthlyM) :=
  (claim_C6 paramsMajority).2.1 (by
    norm_num [runMontanaChildSupport, totalMonthlyMOf, totalMonthlyFOf,
      totalAnnualMOf, totalAnnualFOf, perChildResultsOf, nKidsOf,
      kidsOf, perChildOf, schedForOf, mPerChildBaseOf, fPerChildBaseOf,
      mAnnualAfterCreditOf, fAnnualAfterCreditOf, mGrossOblOf, fGrossOblOf,
      mSuppShareOf, fSuppShareOf, totalAnnualSupportNeedOf, mSOLAOf, fSOLAOf,
      mIncomeForSolaOf, fIncomeForSolaOf, mPrimaryShareOf, fPrimaryShareOf,
      primaryTotalOf, solaFactorOf, PRIMARY_ALLOWANCE_BY_CHILD, SOLA_FACTOR_BY_CHILD,
      shareMOf, shareFOf, combinedL7Of, mA1Of, fA1Of, computeWorksheetAPart1,
      computeWorksheetC, selectMult, MIN_SUPPORT_BANDS, bandContains,
      totalSuppOf, paramsMajority, r0Q, r0, r2Q, r2, PERSONAL_ALLOWANCE, CREDIT_FACTOR,
      computeWorksheetBPart2ForChild, JSNum.jgt, JSNum.jsub, JSNum.jmul, JSNum.jmax,
      List.range, List.range.loop])

/-! ### Error handling / input coercion -/

/-- The same case as `paramsMajority` but with a `NaN` overnight count for the
mother and 200 overnights for the father. -/
def paramsNaNDays : Params :=
  { mIncome := 60000, mDed := 0, fIncome := 40000, fDed := 0, numChildren := 1,
    supplements := { childcare := 0, health := 0, med := 0, other := 0 },
    parenting := [{ daysA := .nan, daysB := .num 200 }] }

/-- `paramsNaNDays` with the non-finite overnight count replaced by 0 — the
substitution the claim says is behaviour-preserving. -/
def paramsZeroDays : Params :=
  { mIncome := 60000, mDed := 0, fIncome := 40000, fDed := 0, numChildren := 1,
    supplements := { childcare := 0, health := 0, med := 0, other := 0 },
    parenting := [{ daysA := .num 0, daysB := .num 200 }] }

/-- C7 counterexample: replacing a `NaN` overnight count by 0 changes the
result, so the engine does NOT treat every non-finite value as 0.  With `NaN`
overnights both Worksheet B comparisons are false and the equal-days tie
branch runs (mother owes the difference 4570); with 0 overnights the father
has majority time and the mother owes her full per-child base 9061. -/
theorem claim_C7_counterexample :
    (runMontanaChildSupport paramsNaNDays).totalAnnualM = 4570 ∧
    (runMontanaChildSupport paramsZeroDays).totalAnnualM = 9061 ∧
    (runMontanaChildSupport paramsNaNDays).totalAnnualM ≠
      (runMontanaChildSupport paramsZeroDays).totalAnnualM := by
  have h1 : (runMontanaChildSupport paramsNaNDays).totalAnnualM = 4570 := by
    norm_num [runMontanaChildSupport, totalAnnualMOf, perChildResultsOf, nKidsOf,
      kidsOf, perChildOf, schedForOf, mPerChildBaseOf, fPerChildBaseOf,
      mAnnualAfterCreditOf, fAnnualAfterCreditOf, mGrossOblOf, fGrossOblOf,
      mSuppShareOf, fSuppShareOf, totalAnnualSupportNeedOf, mSOLAOf, fSOLAOf,
      mIncomeForSolaOf, fIncomeForSolaOf, mPrimaryShareOf, fPrimaryShareOf,
      primaryTotalOf, solaFactorOf, PRIMARY_ALLOWANCE_BY_CHILD, SOLA_FACTOR_BY_CHILD,
      shareMOf, shareFOf, combinedL7Of, mA1Of, fA1Of, computeWorksheetAPart1,
      computeWorksheetC, selectMult, MIN_SUPPORT_BANDS, bandContains,
      totalSuppOf, paramsNaNDays, r0Q, r0, PERSONAL_ALLOWANCE, CREDIT_FACTOR,
      computeWorksheetBPart2ForChild, JSNum.jgt, JSNum.jsub, JSNum.jmul, JSNum.jmax,
      List.range, List.range.loop]
  have h2 : (runMontanaChildSupport paramsZeroDays).totalAnnualM = 9061 := by
    norm_num [runMontanaChildSupport, totalAnnualMOf, perChildResultsOf, nKidsOf,
      kidsOf, perChildOf, schedForOf, mPerChildBaseOf, fPerChildBaseOf,
      mAnnualAfterCreditOf, fAnnualAfterCreditOf, mGrossOblOf, fGrossOblOf,
      mSuppShareOf, fSuppShareOf, totalAnnualSupportNeedOf, mSOLAOf, fSOLAOf,
      mIncomeForSolaOf, fIncomeForSolaOf, mPrimaryShareOf, fPrimaryShareOf,
      primaryTotalOf, solaFactorOf, PRIMARY_ALLOWANCE_BY_CHILD, SOLA_FACTOR_BY_CHILD,
      shareMOf, shareFOf, combinedL7Of, mA1Of, fA1Of, computeWorksheetAPart1,
      computeWorksheetC, selectMult, MIN_SUPPORT_BANDS, bandContains,
      totalSuppOf, paramsZeroDays, r0Q, r0, PERSONAL_ALLOWANCE, CREDIT_FACTOR,
      computeWorksheetBPart2ForChild, JSNum.jgt, JSNum.jsub, JSNum.jmul, JSNum.jmax,
      List.range, List.range.loop]
  refine ⟨h1, h2, ?_⟩
  rw [h1, h2]
  omega

/-- C7 (amended): the engine is total on the embedded input space and never
signals an error; the rounding primitives `r0`/`r2` coerce every non-finite
argument to 0 and the child count is always clamped into `[1, 8]` — but the
coercion happens at each rounding site, not at input, so a non-finite input
value is not equivalent to entering 0 (see the counterexample). -/
theorem claim_C7_amended (p : Params) (x : JSNum) (hx : x.isFinite = false) :
    r0 x = 0 ∧ r2 x = 0 ∧ 1 ≤ kidsOf p ∧ kidsOf p ≤ 8 := by
  refine ⟨?_, ?_, le_max_left 1 _, max_le (by norm_num) (min_le_left 8 _)⟩
  · cases x with
    | num q => exact absurd hx (by simp [JSNum.isFinite])
    | nan => rfl
    | inf => rfl
    | ninf => rfl
  · cases x with
    | num q => exact absurd hx (by simp [JSNum.isFinite])
    | nan => rfl
    | inf => rfl
    | ninf => rfl

/-- Witness for the amended C7: `NaN` at a child count of 12. -/
theorem claim_C7_witness :
    r0 .nan = 0 ∧ r2 .nan = 0 ∧
    1 ≤ kidsOf { paramsMajority with numChildren := 12 } ∧
    kidsOf { paramsMajority with numChildren := 12 } ≤ 8 :=
  claim_C7_amended { paramsMajority with numChildren := 12 } .nan rfl

/-! ### Parenting-schedule fallback -/

/-- Case with no parenting schedule at all. -/
def paramsNoSched : Params :=
  { mIncome := 60000, mDed := 0, fIncome := 40000, fDed := 0, numChildren := 1,
    supplements := { childcare := 0, health := 0, med := 0, other := 0 },
    parenting := [] }

/-- Case with two children but a single schedule entry (200/165). -/
def paramsShortSched : Params :=
  { mIncome := 60000, mDed := 0, fIncome := 40000, fDed := 0, numChildren := 2,
    supplements := { childcare := 0, health := 0, med := 0, other := 0 },
    parenting := [{ daysA := .num 200, daysB := .num 165 }] }

/-- C9 counterexample.  First: with an entirely missing schedule the engine
uses 255/110 for the child, not an equal-zero split.  Second: with a missing
entry for child index 1 the engine falls back to the FIRST entry (200/165),
not to 255/110. -/
theorem claim_C9_counterexample :
    ((runMontanaChildSupport paramsNoSched).perChildResults.map
      (fun c => (c.daysM, c.daysF))) = [(JSNum.num 255, JSNum.num 110)] ∧
    JSNum.num 255 ≠ JSNum.num 0 ∧
    ((runMontanaChildSupport paramsShortSched).perChildResults.map
      (fun c => (c.daysM, c.daysF))) =
      [(JSNum.num 200, JSNum.num 165), (JSNum.num 200, JSNum.num 165)] ∧
    JSNum.num 200 ≠ JSNum.num 255 := by
  refine ⟨?_, ?_, ?_, ?_⟩
  · norm_num [runMontanaChildSupport, perChildResultsOf, nKidsOf, kidsOf,
      perChildOf, schedForOf, paramsNoSched, List.range, List.range.loop]
  · simp only [ne_eq, JSNum.num.injEq]
    norm_num
  · norm_num [runMontanaChildSupport, perChildResultsOf, nKidsOf, kidsOf,
      perChildOf, schedForOf, paramsShortSched, List.range, List.range.loop]
  · simp only [ne_eq, JSNum.num.injEq]
    norm_num

/-- C9 (amended): when no schedule entry exists for a child index the engine
falls back to the FIRST schedule entry for that child, and only when no
schedule at all is present does it fall back to a default 255/110 split (for
every child); there is no equal-zero default. -/
theorem claim_C9_amended (p : Params) :
    (p.parenting = [] → ∀ i : ℕ,
      ((runMontanaChildSupport p).perChildResults.get? i).elim True
        (fun c => c.daysM = JSNum.num 255 ∧ c.daysF = JSNum.num 110)) ∧
    (∀ s, p.parenting.get? 0 = some s → ∀ i : ℕ, p.parenting.get? i = none →
      ((runMontanaChildSupport p).perChildResults.get? i).elim True
        (fun c => c.daysM = s.daysA ∧ c.daysF = s.daysB)) := by
  have hres : (runMontanaChildSupport p).perChildResults =
      (List.range (nKidsOf p)).map (perChildOf p) := rfl
  constructor
  · intro hpar i
    rw [hres, List.get?_map]
    cases hr : (List.range (nKidsOf p)).get? i with
    | none => simp
    | some j =>
      simp only [Option.map_some, Option.elim]
      constructor
      · show (schedForOf p j).daysA = JSNum.num 255
        simp [schedForOf, hpar]
      · show (schedForOf p j).daysB = JSNum.num 110
        simp [schedForOf, hpar]
  · intro s hs0 i hi
    rw [hres, List.get?_map]
    cases hr : (List.range (nKidsOf p)).get? i with
    | none => simp
    | some j =>
      have hji : j = i := by
        have hlen : i < nKidsOf p := by
          have h := (List.get?_eq_some.mp hr).1
          simpa [List.length_range] using h
        rw [List.get?_range hlen] at hr
        exact (Option.some.inj hr).symm
      simp only [Option.map_some, Option.elim]
      constructor
      · show (schedForOf p j).daysA = s.daysA
        rw [hji]
        unfold schedForOf
        rw [hi, hs0]
      · show (schedForOf p j).daysB = s.daysB
        rw [hji]
        unfold schedForOf
        rw [hi, hs0]

/-- Witness for the amended C9: empty schedule gives 255/110; a missing entry
for the second child reuses the first entry 200/165. -/
theorem claim_C9_witness :
    (((runMontanaChildSupport paramsNoSched).perChildResults.get? 0).elim True
      (fun c => c.daysM = JSNum.num 255 ∧ c.daysF = JSNum.num 110)) ∧
    (((runMontanaChildSupport paramsShortSched).perChildResults.get? 1).elim True
      (fun c => c.daysM = JSNum.num 200 ∧ c.daysF = JSNum.num 165)) :=
  ⟨(claim_C9_amended paramsNoSched).1 rfl 0,
   (claim_C9_amended paramsShortSched).2
     { daysA := .num 200, daysB := .num 165 } rfl 1 rfl⟩
